import Mathlib

/-!
Shallow embedding of the `responder` Go package (github.com/mickaelvieira/responder).

The package converts arbitrary values into HTTP response bodies.  Its core is
`contentFormatter` (a capability-ordered dispatch from a value to bytes),
`MessageToString` (message normalization), and a `responder` pipeline whose
send operations set headers, a status code and a body on an abstract
response writer, optionally logging through an abstract logger.

Modelling choices:
* Go byte slices (`[]byte`) are `List UInt8`; a Go string converts to its
  UTF-8 bytes via `strBytes`.
* Go's dynamic `any` values are the inductive `GoValue`.  The structural
  capabilities that the source dispatches on (`xml.Marshaler`,
  `json.Marshaler`, `encoding.TextMarshaler`, `fmt.Stringer`, `error`) are
  carried by a `Caps` record on the `obj` constructor: `none` means the
  value does not implement the interface, `some r` means invoking the
  capability yields `r` (`Except.ok bytes` on success, `Except.error text`
  when the marshaler returns a non-nil error whose text is `text`).  The
  generic `json.Marshal` fallback outcome for such an opaque value is the
  `genericJSON` field.  The concrete struct `jsonError` (from the JSON
  preset) gets its own constructor `jsonErr`, since its generic JSON
  serialization is fully determined: `{"error": <escaped string>}`.
* Go's `error` values are `GoError` (just their text); a nil-able `error`
  parameter is `Option GoError`.
* `http.ResponseWriter` is a state record: a header map, an optional status
  code, the list of byte chunks passed to `Write`, and the error the sink
  returns from `Write` (`none` = write succeeds).
* The `*slog.Logger` is modelled by presence (`logger : Bool`) plus the list
  of `LogEntry` values emitted by a call.
-/

namespace Responder

/-- Go `[]byte`. -/
abbrev Bytes := List UInt8

/-- UTF-8 bytes of a Go string (Go's `[]byte(s)` conversion). -/
def strBytes (s : String) : Bytes :=
  s.data.flatMap String.utf8EncodeChar

/-- Text of a Go `error` value (what its `Error()` method returns). -/
structure GoError where
  text : String
deriving DecidableEq, Repr

/-- Structural capabilities of an opaque Go value, as probed by the type
switches in the source.  Each marshaler field is `none` when the interface
is not implemented, `some (Except.ok b)` when invoking it succeeds with
bytes `b`, and `some (Except.error e)` when it returns an error with text
`e`.  `genericJSON` is the outcome of the generic `json.Marshal` fallback
on this value. -/
structure Caps where
  xmlMarshal : Option (Except String Bytes)
  jsonMarshal : Option (Except String Bytes)
  textMarshal : Option (Except String Bytes)
  stringer : Option String
  errText : Option String
  genericJSON : Except String Bytes

/-- A Go `any` value, restricted to the shapes the source code can
distinguish: `nil`, a string, a byte slice, the preset's `jsonError`
struct (a plain struct with one tagged string field), or an opaque value
described by its capabilities. -/
inductive GoValue where
  | nilV
  | str (s : String)
  | bytes (b : Bytes)
  | jsonErr (msg : String)
  | obj (caps : Caps)

/-- `GenericErrorMessage` constant from the source. -/
def GenericErrorMessage : String := "an error occurred"

/-- Content-type constant for plain text. -/
def TextContentType : String := "text/plain; charset=utf-8"

/-- Content-type constant for CSV. -/
def CSVContentType : String := "text/csv; charset=utf-8"

/-- Content-type constant for HTML. -/
def HTMLContentType : String := "text/html; charset=utf-8"

/-- Content-type constant for JSON. -/
def JSONContentType : String := "application/json; charset=utf-8"

/-- Content-type constant for XML. -/
def XMLContentType : String := "application/xml; charset=utf-8"

/-- Bytes produced by `fmt.Appendf(nil, "received invalid content - %s", err)`:
the literal bytes of the format text followed by the bytes of the error
text. -/
def invalidContent (errText : String) : Bytes :=
  strBytes "received invalid content - " ++ strBytes errText

/-- Lowercase hex digit, as used by Go's JSON encoder. -/
def hexDigit (n : Nat) : Char :=
  "0123456789abcdef".toList.getD n '0'

/-- Escaping of one character inside a JSON string literal, following Go's
`encoding/json` default encoder (HTML-escaping `<`, `>`, `&`; escaping
control characters, `"` and backslash; ` `/` `). -/
def jsonEscapeChar (c : Char) : String :=
  if c = '"' then "\\\""
  else if c = '\\' then "\\\\"
  else if c = '\n' then "\\n"
  else if c = '\r' then "\\r"
  else if c = '\t' then "\\t"
  else if c.toNat < 0x20 then
    "\\u00" ++ String.singleton (hexDigit (c.toNat / 16))
            ++ String.singleton (hexDigit (c.toNat % 16))
  else if c = '<' then "\\u003c"
  else if c = '>' then "\\u003e"
  else if c = '&' then "\\u0026"
  else if c.toNat = 0x2028 then "\\u2028"
  else if c.toNat = 0x2029 then "\\u2029"
  else String.singleton c

/-- A Go JSON string literal for `s` (quotes plus escaped content). -/
def jsonQuote (s : String) : String :=
  "\"" ++ String.join (s.data.map jsonEscapeChar) ++ "\""

/-- `json.Marshal` applied to the `jsonError` struct
`jsonError{Error: m}` (field tagged `json:"error"`): always succeeds and
yields the object with the single key `"error"`. -/
def marshalJsonError (m : String) : Bytes :=
  strBytes ("\x7b\"error\":" ++ jsonQuote m ++ "\x7d")

/-- Result handling shared by every marshaling branch of
`contentFormatter`: the bytes on success, the
`"received invalid content - "` payload on error. -/
def marshalOutcome (r : Except String Bytes) : Bytes :=
  match r with
  | .ok b => b
  | .error e => invalidContent e

/-- `contentFormatter` from `responder.go`: the default content formatter.
Dispatch, in source order: `nil`; `string`; `[]byte`; `xml.Marshaler`;
`json.Marshaler`; `encoding.TextMarshaler`; generic `json.Marshal`.
The `jsonErr` constructor (the preset's `jsonError` struct) implements
none of the marshaler interfaces, so it falls to the generic
`json.Marshal` branch, which fully determines its bytes. -/
def contentFormatter (c : GoValue) : Bytes :=
  match c with
  | .nilV => []
  | .str s => strBytes s
  | .bytes b => b
  | .jsonErr m => marshalJsonError m
  | .obj caps =>
    match caps.xmlMarshal with
    | some r => marshalOutcome r
    | none =>
      match caps.jsonMarshal with
      | some r => marshalOutcome r
      | none =>
        match caps.textMarshal with
        | some r => marshalOutcome r
        | none => marshalOutcome caps.genericJSON

/-- `MessageToString` from `responder.go` (the identical function also
lives in `internal/strings.go`): a string is returned as is; a
`fmt.Stringer` yields its `String()`; an `error` yields its `Error()`;
anything else yields `GenericErrorMessage`.  `nil`, byte slices and the
`jsonError` struct implement neither interface, so they take the default
branch. -/
def MessageToString (message : GoValue) : String :=
  match message with
  | .str s => s
  | .obj caps =>
    match caps.stringer with
    | some s => s
    | none =>
      match caps.errText with
      | some e => e
      | none => GenericErrorMessage
  | _ => GenericErrorMessage

/-- `stringFormatter`: the default error formatter, converting the message
to a string via `MessageToString`. -/
def stringFormatter (message : GoValue) : GoValue :=
  .str (MessageToString message)

/-- `jsonFormatter` from the preset file: wraps the normalized message into
the `jsonError` struct. -/
def jsonFormatter (message : GoValue) : GoValue :=
  .jsonErr (MessageToString message)

/-- `Options`: responder configuration.  The `*slog.Logger` handle is
modelled by its presence (`logger = true` iff a logger is configured). -/
structure Options where
  logger : Bool
  errorFormatter : GoValue → GoValue
  contentFormatter : GoValue → Bytes

/-- `OptionsModifier`: mutates one field of the options record. -/
abbrev OptionsModifier := Options → Options

/-- `WithLogger`: configures a logger. -/
def WithLogger : OptionsModifier :=
  fun o => { o with logger := true }

/-- `WithContentFormatter`: sets a custom content formatter. -/
def WithContentFormatter (f : GoValue → Bytes) : OptionsModifier :=
  fun o => { o with contentFormatter := f }

/-- `WithErrorFormatter`: sets a custom error message formatter. -/
def WithErrorFormatter (f : GoValue → GoValue) : OptionsModifier :=
  fun o => { o with errorFormatter := f }

/-- The `responder` struct behind the `Responder` interface: a fixed
content-type string plus options. -/
structure Resp where
  contentType : String
  options : Options

/-- `New`: builds a responder with default options (`stringFormatter`,
`contentFormatter`), then applies the modifiers in order. -/
def New (contentType : String) (optionsModifiers : List OptionsModifier) : Resp :=
  { contentType := contentType
    options := optionsModifiers.foldl (fun o modify => modify o)
      { logger := false
        errorFormatter := stringFormatter
        contentFormatter := contentFormatter } }

/-- `JSONResponder` from the preset file: appends the caller's modifiers,
then `WithErrorFormatter jsonFormatter`, and builds with
`JSONContentType`. -/
def JSONResponder (options : List OptionsModifier) : Resp :=
  New JSONContentType (options ++ [WithErrorFormatter jsonFormatter])

/-- `TextResponder` preset. -/
def TextResponder (options : List OptionsModifier) : Resp :=
  New TextContentType options

/-- `HTMLResponder` preset. -/
def HTMLResponder (options : List OptionsModifier) : Resp :=
  New HTMLContentType options

/-- `CSVResponder` preset. -/
def CSVResponder (options : List OptionsModifier) : Resp :=
  New CSVContentType options

/-- `XMLResponder` preset. -/
def XMLResponder (options : List OptionsModifier) : Resp :=
  New XMLContentType options

/-- One call to the abstract logger's `Error(msg, key, value, ...)` sink:
the primary text plus the key/value fields (values rendered as text). -/
structure LogEntry where
  msg : String
  fields : List (String × String)
deriving DecidableEq, Repr

/-- State of an `http.ResponseWriter`: the header map, the status code once
written, the chunks passed to `Write`, and the error the underlying sink
returns from `Write` (`none` = the write succeeds). -/
structure ResponseWriter where
  headers : String → Option String
  statusCode : Option Nat
  written : List Bytes
  writeErr : Option GoError

/-- `Header().Set(name, value)`: replaces the value stored under `name`. -/
def setHeader (w : ResponseWriter) (name value : String) : ResponseWriter :=
  { w with headers := fun n => if n = name then some value else w.headers n }

/-- `send` from `responder.go`: sets `Content-Type` to the responder's
content type, sets `Content-Length` to the decimal byte count of the
content, writes the status code, then writes the body; if the write
fails and a logger is configured, logs `"failed to write response"` with
fields `status` and `error`. -/
def send (r : Resp) (w : ResponseWriter) (code : Nat) (content : Bytes) :
    ResponseWriter × List LogEntry :=
  let w1 := setHeader w "Content-Type" r.contentType
  let w2 := setHeader w1 "Content-Length" (toString content.length)
  let w3 := { w2 with statusCode := some code, written := w2.written ++ [content] }
  (w3,
    match w.writeErr with
    | some e =>
      if r.options.logger then
        [{ msg := "failed to write response"
           fields := [("status", toString code), ("error", e.text)] }]
      else []
    | none => [])

/-- `logError` from `responder.go`: returns without logging when the cause
is nil or no logger is configured; otherwise logs the normalized message
with fields `status` and `error`. -/
def logError (r : Resp) (err : Option GoError) (code : Nat) (message : GoValue) :
    List LogEntry :=
  match err with
  | none => []
  | some e =>
    if r.options.logger then
      [{ msg := MessageToString message
         fields := [("status", toString code), ("error", e.text)] }]
    else []

/-- `Send200`: 200 OK with the content formatter applied to the value. -/
def Send200 (r : Resp) (w : ResponseWriter) (content : GoValue) :
    ResponseWriter × List LogEntry :=
  send r w 200 (r.options.contentFormatter content)

/-- `Send201`: 201 Created. -/
def Send201 (r : Resp) (w : ResponseWriter) (content : GoValue) :
    ResponseWriter × List LogEntry :=
  send r w 201 (r.options.contentFormatter content)

/-- `Send202`: 202 Accepted. -/
def Send202 (r : Resp) (w : ResponseWriter) (content : GoValue) :
    ResponseWriter × List LogEntry :=
  send r w 202 (r.options.contentFormatter content)

/-- `Send204`: 204 No Content; the body is the content formatter applied to
`nil`. -/
def Send204 (r : Resp) (w : ResponseWriter) : ResponseWriter × List LogEntry :=
  send r w 204 (r.options.contentFormatter .nilV)

/-- Shared shape of the error-family operations: log the cause (if any and
if a logger is present), then send the formatted message.  Each `SendNNN`
below instantiates it at its fixed status code, mirroring the five
syntactically identical method bodies in the source. -/
def sendError (r : Resp) (w : ResponseWriter) (code : Nat) (err : Option GoError)
    (message : GoValue) : ResponseWriter × List LogEntry :=
  let lg := logError r err code message
  let res := send r w code (r.options.contentFormatter (r.options.errorFormatter message))
  (res.1, lg ++ res.2)

/-- `Send400`: 400 Bad Request. -/
def Send400 (r : Resp) (w : ResponseWriter) (err : Option GoError) (message : GoValue) :
    ResponseWriter × List LogEntry :=
  sendError r w 400 err message

/-- `Send401`: 401 Unauthorized. -/
def Send401 (r : Resp) (w : ResponseWriter) (err : Option GoError) (message : GoValue) :
    ResponseWriter × List LogEntry :=
  sendError r w 401 err message

/-- `Send403`: 403 Forbidden. -/
def Send403 (r : Resp) (w : ResponseWriter) (err : Option GoError) (message : GoValue) :
    ResponseWriter × List LogEntry :=
  sendError r w 403 err message

/-- `Send404`: 404 Not Found. -/
def Send404 (r : Resp) (w : ResponseWriter) (err : Option GoError) (message : GoValue) :
    ResponseWriter × List LogEntry :=
  sendError r w 404 err message

/-- `Send500`: 500 Internal Server Error. -/
def Send500 (r : Resp) (w : ResponseWriter) (err : Option GoError) (message : GoValue) :
    ResponseWriter × List LogEntry :=
  sendError r w 500 err message

/-- `SuccessResponse` from `response.go`. -/
structure SuccessResponse where
  status : Nat
  body : GoValue

/-- `SuccessResponse.Status`. -/
def SuccessResponse.Status (r : SuccessResponse) : Nat :=
  r.status

/-- `ErrorResponse` from `response.go`; `err` is the possibly-nil internal
error. -/
structure ErrorResponse where
  status : Nat
  message : String
  err : Option GoError

/-- `ErrorResponse.Status`. -/
def ErrorResponse.Status (r : ErrorResponse) : Nat :=
  r.status

/-- `ErrorResponse.Error`: returns `r.err.Error()`.  When `r.err` is nil
the Go code dereferences a nil interface and panics; the panic is
modelled by `none`. -/
def ErrorResponse.Error (r : ErrorResponse) : Option String :=
  match r.err with
  | some e => some e.text
  | none => none

/-- The `Response` interface: realized by exactly the two structs above. -/
inductive Response where
  | success (r : SuccessResponse)
  | error (r : ErrorResponse)

/-- `Response.Status`, dispatching to the variant's method. -/
def Response.Status (r : Response) : Nat :=
  match r with
  | .success s => s.Status
  | .error e => e.Status

/-- The `Error` constructor from `response.go`: accepts any status, any
(possibly nil) cause and any message, storing them unchanged. -/
def Error (status : Nat) (err : Option GoError) (message : String) : Response :=
  .error { status := status, err := err, message := message }

/-- The `Success` constructor from `response.go`. -/
def Success (status : Nat) (body : GoValue) : Response :=
  .success { status := status, body := body }

/-- What the spec demands of one error-family operation with fixed status
`code`, given result `res`: the status code is written, the body chunk is
`contentFormatter (errorFormatter message)`, and — when the underlying
write succeeds, so that no write-failure entry interferes — the log output
is exactly the error-level entry with the normalized message and fields
`status` and `error` when the cause is non-nil and a logger is configured,
and empty otherwise. -/
def errorFamilySpec (code : Nat) (r : Resp) (w : ResponseWriter) (err : Option GoError)
    (message : GoValue) (res : ResponseWriter × List LogEntry) : Prop :=
  res.1.statusCode = some code ∧
  res.1.written =
    w.written ++ [r.options.contentFormatter (r.options.errorFormatter message)] ∧
  (w.writeErr = none →
    res.2 =
      match err with
      | some e =>
        if r.options.logger then
          [{ msg := MessageToString message
             fields := [("status", toString code), ("error", e.text)] }]
        else []
      | none => [])

/-- Example responder: text content type with a logger configured. -/
def rEx : Resp := New TextContentType [WithLogger]

/-- Example response writer: fresh state, underlying write succeeds. -/
def wEx : ResponseWriter :=
  { headers := fun _ => none, statusCode := none, written := [], writeErr := none }

/-- Example capabilities: implements both the JSON and the text marshaler
(successfully), not the XML one. -/
def capsJT : Caps :=
  { xmlMarshal := none
    jsonMarshal := some (.ok (strBytes "J"))
    textMarshal := some (.ok (strBytes "T"))
    stringer := none
    errText := none
    genericJSON := .ok [] }

/-- Example capabilities: the JSON marshaler is implemented and fails. -/
def capsFail : Caps :=
  { xmlMarshal := none
    jsonMarshal := some (.error "intentional JSON marshal error")
    textMarshal := none
    stringer := none
    errText := none
    genericJSON := .ok [] }

/-- Example capabilities: implements `fmt.Stringer` (and `error`, which the
stringer takes priority over). -/
def capsStr : Caps :=
  { xmlMarshal := none
    jsonMarshal := none
    textMarshal := none
    stringer := some "shown"
    errText := some "hidden"
    genericJSON := .ok [] }

/-- C1: `contentFormatter` resolves by first match in the fixed priority
order: nil yields the empty byte sequence; a raw byte slice is returned
unchanged; a string yields its UTF-8 bytes; then the XML-marshaling
capability; then the JSON-marshaling capability; then the text-marshaling
capability; otherwise the generic structural JSON serialization.  In
particular, a value implementing both the JSON and the text marshaler
takes the JSON path. -/
theorem c1_contentFormatter_priority :
    (contentFormatter .nilV = ([] : Bytes)) ∧
    (∀ b : Bytes, contentFormatter (.bytes b) = b) ∧
    (∀ s : String, contentFormatter (.str s) = strBytes s) ∧
    (∀ caps : Caps, ∀ r, caps.xmlMarshal = some r →
      contentFormatter (.obj caps) = marshalOutcome r) ∧
    (∀ caps : Caps, ∀ r, caps.xmlMarshal = none → caps.jsonMarshal = some r →
      contentFormatter (.obj caps) = marshalOutcome r) ∧
    (∀ caps : Caps, ∀ r, caps.xmlMarshal = none → caps.jsonMarshal = none →
      caps.textMarshal = some r →
      contentFormatter (.obj caps) = marshalOutcome r) ∧
    (∀ caps : Caps, caps.xmlMarshal = none → caps.jsonMarshal = none →
      caps.textMarshal = none →
      contentFormatter (.obj caps) = marshalOutcome caps.genericJSON) ∧
    (∀ caps : Caps, ∀ rj rt, caps.xmlMarshal = none → caps.jsonMarshal = some rj →
      caps.textMarshal = some rt →
      contentFormatter (.obj caps) = marshalOutcome rj) := by
  refine ⟨rfl, fun b => rfl, fun s => rfl, ?_, ?_, ?_, ?_, ?_⟩
  · intro caps r h
    simp [contentFormatter, h]
  · intro caps r h1 h2
    simp [contentFormatter, h1, h2]
  · intro caps r h1 h2 h3
    simp [contentFormatter, h1, h2, h3]
  · intro caps h1 h2 h3
    simp [contentFormatter, h1, h2, h3]
  · intro caps rj rt h1 h2 h3
    simp [contentFormatter, h1, h2]

/-- Witness for C1: on a value implementing both the JSON and the text
marshaler, `contentFormatter` takes the JSON path. -/
theorem c1_witness :
    contentFormatter (.obj capsJT) = marshalOutcome (Except.ok (strBytes "J")) :=
  c1_contentFormatter_priority.2.2.2.2.2.2.2 capsJT
    (Except.ok (strBytes "J")) (Except.ok (strBytes "T")) rfl rfl rfl

/-- C2: each error-family operation (Send400/401/403/404/500) always writes
its fixed status code and the body `contentFormatter (errorFormatter
message)`, and (when the underlying write succeeds, so that no
write-failure log interferes) its log output is exactly one error-level
entry with the normalized message as primary text and fields `status` and
`error` when the cause is non-nil and a logger is configured, and empty
otherwise. -/
theorem c2_errorFamily_spec (r : Resp) (w : ResponseWriter) (err : Option GoError)
    (message : GoValue) :
    (errorFamilySpec 400 r w err message (Send400 r w err message)) ∧
    (errorFamilySpec 401 r w err message (Send401 r w err message)) ∧
    (errorFamilySpec 403 r w err message (Send403 r w err message)) ∧
    (errorFamilySpec 404 r w err message (Send404 r w err message)) ∧
    (errorFamilySpec 500 r w err message (Send500 r w err message)) := by
  refine ⟨?_, ?_, ?_, ?_, ?_⟩ <;>
    refine ⟨rfl, rfl, fun h => ?_⟩ <;>
    · simp only [Send400, Send401, Send403, Send404, Send500, sendError, send, logError, h,
        List.append_nil]
      cases err <;> rfl

/-- Witness for C2: with a logger configured, a non-nil cause and a write
that succeeds, `Send400` logs exactly one entry carrying the normalized
message, the status and the error text. -/
theorem c2_witness :
    (Send400 rEx wEx (some ⟨"boom"⟩) (.str "bad")).2 =
      [{ msg := "bad", fields := [("status", "400"), ("error", "boom")] }] :=
  (c2_errorFamily_spec rEx wEx (some ⟨"boom"⟩) (.str "bad")).1.2.2 rfl

/-- C3: whenever the capability selected by the dispatch fails (XML, JSON,
text, or the generic fallback), `contentFormatter` returns the bytes of
`"received invalid content - "` followed by the bytes of the error text,
rather than propagating the failure. -/
theorem c3_marshal_failure (caps : Caps) (e : String) :
    (caps.xmlMarshal = some (.error e) →
      contentFormatter (.obj caps) =
        strBytes "received invalid content - " ++ strBytes e) ∧
    (caps.xmlMarshal = none → caps.jsonMarshal = some (.error e) →
      contentFormatter (.obj caps) =
        strBytes "received invalid content - " ++ strBytes e) ∧
    (caps.xmlMarshal = none → caps.jsonMarshal = none →
      caps.textMarshal = some (.error e) →
      contentFormatter (.obj caps) =
        strBytes "received invalid content - " ++ strBytes e) ∧
    (caps.xmlMarshal = none → caps.jsonMarshal = none → caps.textMarshal = none →
      caps.genericJSON = .error e →
      contentFormatter (.obj caps) =
        strBytes "received invalid content - " ++ strBytes e) := by
  refine ⟨?_, ?_, ?_, ?_⟩
  · intro h
    simp [contentFormatter, h, marshalOutcome, invalidContent]
  · intro h1 h2
    simp [contentFormatter, h1, h2, marshalOutcome, invalidContent]
  · intro h1 h2 h3
    simp [contentFormatter, h1, h2, h3, marshalOutcome, invalidContent]
  · intro h1 h2 h3 h4
    simp [contentFormatter, h1, h2, h3, h4, marshalOutcome, invalidContent]

/-- Witness for C3: a failing JSON marshaler degrades to the
`"received invalid content - "` payload. -/
theorem c3_witness :
    contentFormatter (.obj capsFail) =
      strBytes "received invalid content - " ++
        strBytes "intentional JSON marshal error" :=
  (c3_marshal_failure capsFail "intentional JSON marshal error").2.1 rfl rfl

/-- C4: the JSON preset appends its own error formatter after every
caller-supplied modifier, so the preset's JSON wrapper always wins; end to
end, `Send404` on a JSON-preset responder produces status 404, the JSON
content type header, and the body `{"error":"resource not found"}`. -/
theorem c4_jsonResponder_override (mods : List OptionsModifier) (w : ResponseWriter)
    (cause : Option GoError) :
    ((JSONResponder mods).options.errorFormatter = jsonFormatter) ∧
    ((JSONResponder mods).contentType = JSONContentType) ∧
    ((Send404 (JSONResponder []) w cause (.str "resource not found")).1.statusCode =
      some 404) ∧
    ((Send404 (JSONResponder []) w cause (.str "resource not found")).1.headers
      "Content-Type" = some "application/json; charset=utf-8") ∧
    ((Send404 (JSONResponder []) w cause (.str "resource not found")).1.written =
      w.written ++ [strBytes "\x7b\"error\":\"resource not found\"\x7d"]) := by
  refine ⟨?_, rfl, rfl, rfl, rfl⟩
  simp [JSONResponder, New, List.foldl_append, WithErrorFormatter]

/-- C5: `MessageToString` is total and resolves by first match: a string is
returned as is; a `fmt.Stringer` value returns its `String()` result (even
when it is also an error); an error value returns its `Error()` text; every
other shape (nil, byte slices, the `jsonError` struct) yields the fixed
generic placeholder. -/
theorem c5_messageToString_spec (s : String) (caps : Caps) (b : Bytes) (m : String) :
    (MessageToString (.str s) = s) ∧
    (∀ t, caps.stringer = some t → MessageToString (.obj caps) = t) ∧
    (∀ e, caps.stringer = none → caps.errText = some e →
      MessageToString (.obj caps) = e) ∧
    (caps.stringer = none → caps.errText = none →
      MessageToString (.obj caps) = GenericErrorMessage) ∧
    (MessageToString .nilV = GenericErrorMessage) ∧
    (MessageToString (.bytes b) = GenericErrorMessage) ∧
    (MessageToString (.jsonErr m) = GenericErrorMessage) := by
  refine ⟨rfl, ?_, ?_, ?_, rfl, rfl, rfl⟩
  · intro t h
    simp [MessageToString, h]
  · intro e h1 h2
    simp [MessageToString, h1, h2]
  · intro h1 h2
    simp [MessageToString, h1, h2]

/-- Witness for C5: the stringer capability wins over the error capability. -/
theorem c5_witness : MessageToString (.obj capsStr) = "shown" :=
  (c5_messageToString_spec "" capsStr [] "").2.1 "shown" rfl

/-- C6: `send` sets the `Content-Type` header to the responder's fixed
content type, sets `Content-Length` to the exact byte count of the body,
writes the status code and appends the body chunk; every other header and
the rest of the writer state are untouched. -/
theorem c6_send_frame (r : Resp) (w : ResponseWriter) (code : Nat) (content : Bytes) :
    ((send r w code content).1.headers "Content-Type" = some r.contentType) ∧
    ((send r w code content).1.headers "Content-Length" =
      some (toString content.length)) ∧
    ((send r w code content).1.statusCode = some code) ∧
    ((send r w code content).1.written = w.written ++ [content]) ∧
    ((send r w code content).1.writeErr = w.writeErr) ∧
    (∀ n : String, n ≠ "Content-Type" → n ≠ "Content-Length" →
      (send r w code content).1.headers n = w.headers n) := by
  refine ⟨rfl, rfl, rfl, rfl, rfl, ?_⟩
  intro n h1 h2
  simp [send, setHeader, h1, h2]

/-- Witness for C6: a header other than `Content-Type` and `Content-Length`
is left untouched by `send`. -/
theorem c6_witness :
    (send rEx wEx 200 (strBytes "hi")).1.headers "X-Other" = none :=
  (c6_send_frame rEx wEx 200 (strBytes "hi")).2.2.2.2.2 "X-Other"
    (by decide) (by decide)

/-- C7: `Send200`/`Send201`/`Send202` write fixed statuses 200/201/202 and a
body equal to the content formatter applied directly to the value (the
error formatter plays no part); `Send204` writes status 204 with the
content formatter applied to nil, which is the empty body whenever the
content formatter is the default one, for every configured content type. -/
theorem c7_success_family (r : Resp) (w : ResponseWriter) (content : GoValue) :
    ((Send200 r w content).1.statusCode = some 200 ∧
      (Send200 r w content).1.written =
        w.written ++ [r.options.contentFormatter content]) ∧
    ((Send201 r w content).1.statusCode = some 201 ∧
      (Send201 r w content).1.written =
        w.written ++ [r.options.contentFormatter content]) ∧
    ((Send202 r w content).1.statusCode = some 202 ∧
      (Send202 r w content).1.written =
        w.written ++ [r.options.contentFormatter content]) ∧
    ((Send204 r w).1.statusCode = some 204 ∧
      (Send204 r w).1.written = w.written ++ [r.options.contentFormatter .nilV]) ∧
    (r.options.contentFormatter = contentFormatter →
      (Send204 r w).1.written = w.written ++ [([] : Bytes)]) := by
  refine ⟨⟨rfl, rfl⟩, ⟨rfl, rfl⟩, ⟨rfl, rfl⟩, ⟨rfl, rfl⟩, ?_⟩
  intro h
  simp [Send204, send, setHeader, h, contentFormatter]

/-- Witness for C7: `Send204` on a default-formatter responder writes an
empty body chunk. -/
theorem c7_witness : (Send204 rEx wEx).1.written = [([] : Bytes)] :=
  (c7_success_family rEx wEx .nilV).2.2.2.2 rfl

/-- C8 counterexample: the constructors accept a zero status unchanged, so
`Status()` can be zero — `Success 0 nil` has status 0, refuting the claim
that `Status()` is never zero for every construction. -/
theorem c8_counterexample : Response.Status (Success 0 .nilV) = 0 := rfl

/-- C8 (amended): `Status()` is defined for every variant and returns
exactly the status supplied at construction — so it is nonzero precisely
when a nonzero status was supplied. -/
theorem c8_status_from_construction (status : Nat) (body : GoValue)
    (err : Option GoError) (message : String) :
    ((Success status body).Status = status) ∧
    ((Error status err message).Status = status) :=
  ⟨rfl, rfl⟩

/-- C9: the default content formatter is deterministic: two applications to
the same immutable input yield byte-identical output. -/
theorem c9_deterministic (v w : GoValue) (h : v = w) :
    contentFormatter v = contentFormatter w := by
  rw [h]

/-- Witness for C9: two applications to the same concrete input agree. -/
theorem c9_witness :
    contentFormatter (.str "hello") = contentFormatter (.str "hello") :=
  c9_deterministic (.str "hello") (.str "hello") rfl

/-- C10: the `Error` constructor accepts a nil cause without complaint, but
`ErrorResponse.Error` is only defined on a non-nil cause — there it
returns the cause's text; on a nil cause the Go receiver dereferences nil
and faults (modelled by `none`). -/
theorem c10_errorResponse_error (status : Nat) (message : String) (e : GoError) :
    (Error status (some e) message =
      .error { status := status, message := message, err := some e }) ∧
    (ErrorResponse.Error { status := status, message := message, err := some e } =
      some e.text) ∧
    (Error status none message =
      .error { status := status, message := message, err := none }) ∧
    (ErrorResponse.Error { status := status, message := message, err := none } =
      none) :=
  ⟨rfl, rfl, rfl, rfl⟩

end Responder
